import Mathlib

/-!
Verification of the auth/session/CSRF delivery layer of the
go-microservice-boilerplate repository.

The HTTP handlers (internal/auth/delivery/http/handlers.go) and the Sanitize
middleware (internal/middleware/sanitize.go) are embedded shallowly: each Go
handler becomes a Lean function from its request data and its injected
collaborators (the auth use case, the session use case — interfaces in the Go
code, modelled as arbitrary state-transforming functions) to the stores it may
mutate and the response it emits.  Packages of the repository that are not part
of the delivery layer sources (pkg/httpErrors, pkg/csrf, pagination utilities)
are modelled from the specification; each such definition is marked
`Modelled from the spec:` in its doc comment.
-/

namespace Boilerplate

/-- Modelled from the spec: pkg/httpErrors is not among the delivery-layer
sources.  Section 7 of the spec gives the error taxonomy: ValidationError
(bad/missing input, 400), UnauthorizedError (401), NotFoundError (404
preferred), ConflictError (409), StorageError/TimeoutError (500); BadRequest is
the 400-class error FindByName emits for a missing name. -/
inductive ErrKind where
  | validation
  | unauthorized
  | notFound
  | conflict
  | storage
  | timeout
  | badRequest
  | internal
  deriving DecidableEq

/-- Modelled from the spec: the HTTP status picked for each error kind,
following the taxonomy of section 7. -/
def statusOf : ErrKind → Nat
  | .validation => 400
  | .unauthorized => 401
  | .notFound => 404
  | .conflict => 409
  | .storage => 500
  | .timeout => 500
  | .badRequest => 400
  | .internal => 500

/-- User record, the fields of models.User relevant to the claims
(full field list in the swagger definitions, src/unnamed/part_000). -/
structure User where
  ID : Int
  firstName : String
  lastName : String
  email : String
  password : String
  role : String
  deriving DecidableEq

/-- Modelled from the spec: models.UserWithToken, the value the auth use case
returns from Register and Login (a user plus an access token). -/
structure UserWithToken where
  user : User
  token : String
  deriving DecidableEq

/-- Modelled from the spec: models.UserWithRole, the current-user value that
the upstream session-validation middleware places into the request context and
GetMe reads back with a type assertion. -/
structure UserWithRole where
  ID : Int
  firstName : String
  lastName : String
  role : String
  deriving DecidableEq

/-- Session record: models.Session — an opaque session id and the owning
user id (handlers.go builds one with only UserID set; the store assigns the
id). -/
structure Session where
  sessionID : String
  userID : Int
  deriving DecidableEq

/-- Pagination envelope models.UsersList (swagger definitions,
src/unnamed/part_000 lines 65-81). -/
structure UsersList where
  page : Nat
  size : Nat
  totalCount : Nat
  totalPages : Nat
  hasMore : Bool
  users : List User
  deriving DecidableEq

/-- The JSON body a handler serializes into the response. -/
inductive Body where
  | empty
  | errBody (e : ErrKind)
  | userBody (u : User)
  | userWithTokenBody (u : UserWithToken)
  | userWithRoleBody (u : UserWithRole)
  | usersListBody (l : UsersList)
  deriving DecidableEq

/-- The transport-level outcome of one handler run: status code, body, the
session cookie set (with the session id it carries) or cleared, and any
response headers written. -/
structure Response where
  status : Nat
  body : Body
  setCookie : Option String
  clearCookie : Bool
  headers : List (String × String)
  deriving DecidableEq

/-- Modelled from the spec: httpErrors.ErrorResponse — maps an error to the
pair (status, RestError body) that c.JSON receives; no cookie is touched and
no header is written on an error path. -/
def errorResponse (e : ErrKind) : Response :=
  { status := statusOf e
    body := .errBody e
    setCookie := none
    clearCookie := false
    headers := [] }

/- ### GetMe (handlers.go lines 324-337) -/

/-- Shallow embedding of authHandlers.GetMe (handlers.go lines 324-337): the
handler reads the current user from the request context with a type assertion
to models.UserWithRole; a failed assertion (value absent or of another type,
modelled as the none case per the spec, section 9) yields an
UnauthorizedError response, otherwise 200 with that user. -/
def GetMe (ctxUser : Option UserWithRole) : Response :=
  match ctxUser with
  | none => errorResponse .unauthorized
  | some u =>
    { status := 200
      body := .userWithRoleBody u
      setCookie := none
      clearCookie := false
      headers := [] }

/- ### CSRF token service (pkg/csrf, modelled) and GetCSRFToken
     (handlers.go lines 348-364) -/

/-- Modelled from the spec: the 64-bit FNV-1a digest of a string, standing in
for the keyed hash of pkg/csrf, section 4.2 of the spec (a keyed hash, e.g.
HMAC).  Pure and total by construction. -/
def fnv1a64 (s : String) : Nat :=
  s.data.foldl (fun h c => ((h ^^^ c.toNat) * 1099511628211) % 2 ^ 64)
    14695981039346656037

/-- Modelled from the spec: csrf.MakeToken — pkg/csrf is not among the
delivery-layer sources.  Section 4.2: a pure, deterministic function of the
session id and a process-wide secret key, realized as the keyed digest of the
secret and the session id; the transport rendering of the digest (an injective
encoding) is omitted, the token is the digest itself. -/
def MakeToken (secret sid : String) : Nat :=
  fnv1a64 (secret ++ "." ++ sid)

/-- Modelled from the spec: csrf.CSRFHeader, the name of the response header
that carries the token (the spec does not fix the name; the conventional one
is used). -/
def csrfHeaderName : String := "X-CSRF-Token"

/-- Shallow embedding of authHandlers.GetCSRFToken (handlers.go lines
348-364): the handler reads the session id from the request context with a
type assertion to string; on failure it responds with UnauthorizedError,
otherwise it writes the token header plus Access-Control-Expose-Headers and
responds 200 with no content. -/
def GetCSRFToken (secret : String) (sid : Option String) : Response :=
  match sid with
  | none => errorResponse .unauthorized
  | some s =>
    { status := 200
      body := .empty
      setCookie := none
      clearCookie := false
      headers := [(csrfHeaderName, toString (MakeToken secret s)),
                  ("Access-Control-Expose-Headers", csrfHeaderName)] }

/- ### Register (handlers.go lines 43-72) and Login (lines 82-111) -/

/-- Modelled from the spec: dto.RegisterUserRequest, the parsed registration
body. -/
structure RegisterRequest where
  firstName : String
  lastName : String
  email : String
  password : String
  deriving DecidableEq

/-- Modelled from the spec: dto.LoginUserRequest, the parsed login
credentials. -/
structure LoginRequest where
  email : String
  password : String
  deriving DecidableEq

/-- The durable user table owned by the User Directory. -/
def UserStore := List User

/-- The session records owned by the Session Store. -/
def SessStore := List Session

/-- Collaborators of the Register handler, injected as interfaces in the Go
code: the body parse (utils.ReadRequest), the auth use case Register method,
the session use case CreateSession method, and cfg.Session.Expire.  The use
cases are arbitrary state-transforming functions over their stores. -/
structure RegisterEnv where
  readRequest : Except ErrKind RegisterRequest
  registerUC : RegisterRequest → UserStore → Except ErrKind (UserStore × UserWithToken)
  createSession : Int → Nat → SessStore → Except ErrKind (SessStore × Session)
  sessionExpire : Nat

/-- Shallow embedding of authHandlers.Register (handlers.go lines 43-72):
parse the body, call authUC.Register, call sessUC.CreateSession with the
created user id and the configured expiry, set the session cookie, respond
201 with the created user.  Each failing step returns the mapped error
response at once; a later failure keeps the store mutations of the earlier
steps (the handler performs no compensation). -/
def Register (env : RegisterEnv) (us : UserStore) (ss : SessStore) :
    UserStore × SessStore × Response :=
  match env.readRequest with
  | .error e => (us, ss, errorResponse e)
  | .ok req =>
    match env.registerUC req us with
    | .error e => (us, ss, errorResponse e)
    | .ok (us2, createdUser) =>
      match env.createSession createdUser.user.ID env.sessionExpire ss with
      | .error e => (us2, ss, errorResponse e)
      | .ok (ss2, sess) =>
        (us2, ss2,
          { status := 201
            body := .userWithTokenBody createdUser
            setCookie := some sess.sessionID
            clearCookie := false
            headers := [] })

/-- Collaborators of the Login handler, as for `RegisterEnv`. -/
structure LoginEnv where
  readRequest : Except ErrKind LoginRequest
  loginUC : LoginRequest → UserStore → Except ErrKind (UserStore × UserWithToken)
  createSession : Int → Nat → SessStore → Except ErrKind (SessStore × Session)
  sessionExpire : Nat

/-- Shallow embedding of authHandlers.Login (handlers.go lines 82-111): same
shape as Register with authUC.Login and a 200 response. -/
def Login (env : LoginEnv) (us : UserStore) (ss : SessStore) :
    UserStore × SessStore × Response :=
  match env.readRequest with
  | .error e => (us, ss, errorResponse e)
  | .ok login =>
    match env.loginUC login us with
    | .error e => (us, ss, errorResponse e)
    | .ok (us2, userWithToken) =>
      match env.createSession userWithToken.user.ID env.sessionExpire ss with
      | .error e => (us2, ss, errorResponse e)
      | .ok (ss2, sess) =>
        (us2, ss2,
          { status := 200
            body := .userWithTokenBody userWithToken
            setCookie := some sess.sessionID
            clearCookie := false
            headers := [] })

/- ### Logout (handlers.go lines 121-145) -/

/-- Collaborators of the Logout handler: the session cookie of the request
(echo Context.Cookie returns ErrNoCookie when it is absent, the none case
here) and the session use case DeleteByID method. -/
structure LogoutEnv where
  cookie : Option String
  deleteByID : String → SessStore → Except ErrKind SessStore

/-- Shallow embedding of authHandlers.Logout (handlers.go lines 121-145):
read the session-id cookie; when it is absent respond 401 with
UnauthorizedError; otherwise call sessUC.DeleteByID with the cookie value;
on failure return the mapped error response, on success clear the session
cookie and respond 200 with no content.  The middle component of the result
records the DeleteByID calls made, with their arguments, in order. -/
def Logout (env : LogoutEnv) (ss : SessStore) :
    SessStore × List String × Response :=
  match env.cookie with
  | none => (ss, [], errorResponse .unauthorized)
  | some v =>
    match env.deleteByID v ss with
    | .error e => (ss, [v], errorResponse e)
    | .ok ss2 =>
      (ss2, [v],
        { status := 200
          body := .empty
          setCookie := none
          clearCookie := true
          headers := [] })

/- ### FindByName (handlers.go lines 256-280) -/

/-- Pagination query parsed from page/size/orderBy, utils.GetPaginationFromCtx
(not among the delivery-layer sources; only the fields are needed here). -/
structure PaginationQuery where
  page : Nat
  size : Nat
  orderBy : String
  deriving DecidableEq

/-- Collaborators of the FindByName handler: the name query parameter (echo
QueryParam returns the empty string when it is missing), the pagination parse,
and the auth use case FindByName method. -/
structure FindByNameEnv where
  nameParam : String
  pagination : Except ErrKind PaginationQuery
  findByNameUC : String → PaginationQuery → Except ErrKind UsersList

/-- Shallow embedding of authHandlers.FindByName (handlers.go lines 256-280):
an empty or missing name query parameter yields 400 with a BadRequest error
body before anything else runs; then the pagination is parsed and the use case
searched, each failure mapped to its error response, success to 200 with the
UsersList.  The boolean records whether the use case was invoked. -/
def FindByName (env : FindByNameEnv) : Bool × Response :=
  if env.nameParam = "" then
    (false, errorResponse .badRequest)
  else
    match env.pagination with
    | .error e => (false, errorResponse e)
    | .ok pq =>
      match env.findByNameUC env.nameParam pq with
      | .error e => (true, errorResponse e)
      | .ok l =>
        (true,
          { status := 200
            body := .usersListBody l
            setCookie := none
            clearCookie := false
            headers := [] })

/- ### Pagination envelope construction (modelled; the User Directory sources
     are not under the delivery layer, only the swagger model of UsersList
     is, src/unnamed/part_000 lines 65-81) -/

/-- Modelled from the spec: the total-pages computation of the pagination
utilities (utils.GetTotalPages), the integer form of
ceil(totalCount / size). -/
def getTotalPages (totalCount size : Nat) : Nat :=
  (totalCount + size - 1) / size

/-- Modelled from the spec: the UsersList envelope that List and FindByName
build for one page of a directory — page and size echoed back, totalCount the
directory size, totalPages = ceil(totalCount / size), has_more = page <
total_pages, and the users of the requested 1-based page in directory
order. -/
def listPage (directory : List User) (page size : Nat) : UsersList :=
  let totalCount := directory.length
  let totalPages := getTotalPages totalCount size
  { page := page
    size := size
    totalCount := totalCount
    totalPages := totalPages
    hasMore := decide (page < totalPages)
    users := (directory.drop ((page - 1) * size)).take size }

/-- A 25-user directory with distinct ids, for the pagination example of the
spec (section 8). -/
def directory25 : List User :=
  (List.range 25).map (fun i =>
    { ID := (i : Int)
      firstName := "first"
      lastName := "last"
      email := "user@example.com"
      password := "hashed"
      role := "user" })

/- ### Sanitize middleware (internal/middleware/sanitize.go lines 13-29) -/

/-- Request bytes, as read by io.ReadAll. -/
def Bytes := List Nat

/-- Collaborators of the Sanitize middleware: the body read (io.ReadAll,
which can fail) and sanitize.SanitizeJSON (not among the delivery-layer
sources; an arbitrary fallible function on the bytes). -/
structure SanitizeEnv where
  readBody : Except Unit Bytes
  sanitizeJSON : Bytes → Except Unit Bytes

/-- Shallow embedding of MiddlewareManager.Sanitize (sanitize.go lines
13-29): read the body — on failure respond 400 with no content; sanitize it —
on failure respond 400 with no content; otherwise store the sanitized bytes in
the request context under the key "body" (echo Context.Set, modelled as
prepending to the association list) and run the next handler on the updated
context.  The boolean records whether the next handler ran. -/
def Sanitize (env : SanitizeEnv) (ctx : List (String × Bytes))
    (next : List (String × Bytes) → Response) : Bool × Response :=
  match env.readBody with
  | .error _ =>
    (false,
      { status := 400, body := .empty, setCookie := none, clearCookie := false,
        headers := [] })
  | .ok b =>
    match env.sanitizeJSON b with
    | .error _ =>
      (false,
        { status := 400, body := .empty, setCookie := none,
          clearCookie := false, headers := [] })
    | .ok sanBody => (true, next (("body", sanBody) :: ctx))

/- ### Update, GetUserByID, Delete (handlers.go lines 156-183, 195-214,
     226-244) and the user_id path-parameter parse -/

/-- Accumulates the value of a non-empty all-digit character list, Go
strconv's base-10 digit loop. -/
def parseDigits (cs : List Char) : Option Nat :=
  if cs = [] then none
  else
    cs.foldl
      (fun acc c =>
        match acc with
        | none => none
        | some n => if c.isDigit then some (n * 10 + (c.toNat - 48)) else none)
      (some 0)

/-- Embedding of strconv.Atoi on a 64-bit platform: an optional single sign
followed by at least one decimal digit, rejecting values outside
[-2^63, 2^63 - 1] (Go returns ErrRange there); every other string is a parse
error, the none case. -/
def atoi (s : String) : Option Int :=
  let signed : List Char → Bool → Option Int := fun cs neg =>
    match parseDigits cs with
    | none => none
    | some n =>
      if neg then if n ≤ 2 ^ 63 then some (-(n : Int)) else none
      else if n < 2 ^ 63 then some (n : Int) else none
  match s.data with
  | [] => none
  | '+' :: rest => signed rest false
  | '-' :: rest => signed rest true
  | cs => signed cs false

/-- Collaborators of the Update handler: the user_id path parameter, the body
parse into a user record, and the auth use case Update method. -/
structure UpdateEnv where
  userIDParam : String
  readRequest : Except ErrKind User
  updateUC : User → UserStore → Except ErrKind (UserStore × User)

/-- Shallow embedding of authHandlers.Update (handlers.go lines 156-183):
parse the user_id path parameter with strconv.Atoi — on failure return the
mapped error response (the spec, section 7, maps bad input to a 400
ValidationError) without touching the use case; then parse the body into a
user whose ID is the parsed id, call authUC.Update, and respond 200 with the
updated user.  The boolean records whether the use case was invoked. -/
def Update (env : UpdateEnv) (us : UserStore) :
    UserStore × Bool × Response :=
  match atoi env.userIDParam with
  | none => (us, false, errorResponse .validation)
  | some uID =>
    match env.readRequest with
    | .error e => (us, false, errorResponse e)
    | .ok parsed =>
      match env.updateUC { parsed with ID := uID } us with
      | .error e => (us, true, errorResponse e)
      | .ok (us2, updatedUser) =>
        (us2, true,
          { status := 200
            body := .userBody updatedUser
            setCookie := none
            clearCookie := false
            headers := [] })

/-- Collaborators of the GetUserByID handler: the user_id path parameter and
the auth use case GetByID method (read-only on the store). -/
structure GetUserByIDEnv where
  userIDParam : String
  getByIDUC : Int → UserStore → Except ErrKind User

/-- Shallow embedding of authHandlers.GetUserByID (handlers.go lines
195-214): parse user_id — on failure the mapped error response, use case
untouched; then authUC.GetByID and 200 with the user.  The boolean records
whether the use case was invoked; the store is read-only here and returned
unchanged. -/
def GetUserByID (env : GetUserByIDEnv) (us : UserStore) :
    UserStore × Bool × Response :=
  match atoi env.userIDParam with
  | none => (us, false, errorResponse .validation)
  | some uID =>
    match env.getByIDUC uID us with
    | .error e => (us, true, errorResponse e)
    | .ok u =>
      (us, true,
        { status := 200
          body := .userBody u
          setCookie := none
          clearCookie := false
          headers := [] })

/-- Collaborators of the Delete handler: the user_id path parameter and the
auth use case Delete method. -/
structure DeleteEnv where
  userIDParam : String
  deleteUC : Int → UserStore → Except ErrKind UserStore

/-- Shallow embedding of authHandlers.Delete (handlers.go lines 226-244):
parse user_id — on failure the mapped error response, use case untouched;
then authUC.Delete and 200 with no content.  The boolean records whether the
use case was invoked. -/
def Delete (env : DeleteEnv) (us : UserStore) :
    UserStore × Bool × Response :=
  match atoi env.userIDParam with
  | none => (us, false, errorResponse .validation)
  | some uID =>
    match env.deleteUC uID us with
    | .error e => (us, true, errorResponse e)
    | .ok us2 =>
      (us2, true,
        { status := 200
          body := .empty
          setCookie := none
          clearCookie := false
          headers := [] })

/- ### Concrete instances used by witnesses -/

/-- A concrete user record. -/
def userW : User :=
  { ID := 7
    firstName := "Ada"
    lastName := "Lovelace"
    email := "ada@example.com"
    password := "hashed-pw"
    role := "user" }

/-- A concrete registration body. -/
def reqW : RegisterRequest :=
  { firstName := "Ada"
    lastName := "Lovelace"
    email := "ada@example.com"
    password := "plain-pw-123" }

/-- A concrete created-user result of the Register use case. -/
def createdW : UserWithToken := { user := userW, token := "tok-1" }

/-- A concrete session record. -/
def sessW : Session := { sessionID := "sid-1", userID := 7 }

/- ### C3 — GetMe -/

/-- C3: for every GetMe request, a missing current-user value in the request
context yields the UnauthorizedError response (status 401), and a present
value yields 200 with exactly that user. -/
theorem getMe_requires_context_user :
    GetMe none = errorResponse .unauthorized
    ∧ (errorResponse .unauthorized).status = 401
    ∧ ∀ u : UserWithRole,
        GetMe (some u) =
          { status := 200
            body := .userWithRoleBody u
            setCookie := none
            clearCookie := false
            headers := [] } :=
  ⟨rfl, rfl, fun _ => rfl⟩

/- ### C4 — GetCSRFToken -/

/-- C4: for every GetCSRFToken request, a missing session id in the request
context yields the UnauthorizedError response (status 401); a present session
id yields 200 with an empty body, the CSRF token carried in the token header,
and that header exposed via Access-Control-Expose-Headers. -/
theorem getCSRFToken_cases :
    ∀ secret : String,
      GetCSRFToken secret none = errorResponse .unauthorized
      ∧ (errorResponse .unauthorized).status = 401
      ∧ ∀ s : String,
          GetCSRFToken secret (some s) =
            { status := 200
              body := .empty
              setCookie := none
              clearCookie := false
              headers := [(csrfHeaderName, toString (MakeToken secret s)),
                          ("Access-Control-Expose-Headers", csrfHeaderName)] } :=
  fun _ => ⟨rfl, rfl, fun _ => rfl⟩

/- ### C6 — MakeToken -/

/-- C6: MakeToken is a pure deterministic function of the session id and the
secret — equal session ids under the same secret give equal tokens; and token
equality forces equality of the underlying keyed digests, so distinct session
ids give distinct tokens except at a collision of the hash; on the concrete
pair sid-1 and sid-2 the tokens indeed differ. -/
theorem makeToken_pure_and_collision_bounded :
    ∀ secret sid1 sid2 : String,
      (sid1 = sid2 → MakeToken secret sid1 = MakeToken secret sid2)
      ∧ (MakeToken secret sid1 = MakeToken secret sid2 →
          fnv1a64 (secret ++ "." ++ sid1) = fnv1a64 (secret ++ "." ++ sid2))
      ∧ MakeToken "secret-key" "sid-1" ≠ MakeToken "secret-key" "sid-2" :=
  fun _ _ _ =>
    ⟨fun h => by rw [h], fun h => h, by decide⟩

/-- Witness for C6 at concrete inputs: the determinism implication applied at
the equal pair, and the concrete distinctness. -/
theorem makeToken_pure_and_collision_bounded_witness :
    MakeToken "k0" "same-sid" = MakeToken "k0" "same-sid"
    ∧ MakeToken "secret-key" "sid-1" ≠ MakeToken "secret-key" "sid-2" :=
  ⟨(makeToken_pure_and_collision_bounded "k0" "same-sid" "same-sid").1 rfl,
   (makeToken_pure_and_collision_bounded "k0" "a" "b").2.2⟩

/- ### C1 — Register partial failure -/

/-- C1: when the Register body parses and the user-creation step succeeds but
session creation fails, the handler returns the session-creation error
response, the user store stays exactly the post-creation store (no
compensating rollback or user deletion), the session store is untouched, and
no session cookie is set. -/
theorem register_session_failure_keeps_user
    (env : RegisterEnv) (us us2 : UserStore) (ss : SessStore)
    (req : RegisterRequest) (createdUser : UserWithToken) (e : ErrKind)
    (h1 : env.readRequest = .ok req)
    (h2 : env.registerUC req us = .ok (us2, createdUser))
    (h3 : env.createSession createdUser.user.ID env.sessionExpire ss
            = .error e) :
    Register env us ss = (us2, ss, errorResponse e)
    ∧ (errorResponse e).setCookie = none := by
  unfold Register
  simp [h1, h2, h3, errorResponse]

/-- Concrete environment for the C1 witness: parse and user creation succeed
(the user is appended to the store), session creation fails with
StorageError. -/
def regEnvFailSess : RegisterEnv :=
  { readRequest := .ok reqW
    registerUC := fun _ us => .ok (userW :: us, createdW)
    createSession := fun _ _ _ => .error .storage
    sessionExpire := 86400 }

/-- Witness for C1: on the concrete environment the created user stays in the
store and the StorageError response goes out without a cookie. -/
theorem register_session_failure_keeps_user_witness :
    Register regEnvFailSess [] [] = ([userW], [], errorResponse .storage)
    ∧ (errorResponse .storage).setCookie = none :=
  register_session_failure_keeps_user regEnvFailSess [] [userW] []
    reqW createdW .storage rfl rfl rfl

/- ### C9 — session cookie iff full success, for Register and Login -/

/-- C9: for Register and for Login, the response carries a session cookie
exactly when the body parse, the user operation and the session creation all
succeeded; and whenever the cookie is set the body is not an error body, so a
client never receives a session cookie together with an error response. -/
theorem session_cookie_iff_success
    (envR : RegisterEnv) (envL : LoginEnv) (us : UserStore) (ss : SessStore) :
    ((Register envR us ss).2.2.setCookie.isSome = true ↔
      ∃ req us2 cu ss2 sess,
        envR.readRequest = .ok req
        ∧ envR.registerUC req us = .ok (us2, cu)
        ∧ envR.createSession cu.user.ID envR.sessionExpire ss = .ok (ss2, sess))
    ∧ ((Login envL us ss).2.2.setCookie.isSome = true ↔
      ∃ login us2 ut ss2 sess,
        envL.readRequest = .ok login
        ∧ envL.loginUC login us = .ok (us2, ut)
        ∧ envL.createSession ut.user.ID envL.sessionExpire ss = .ok (ss2, sess))
    ∧ ((Register envR us ss).2.2.setCookie.isSome = true →
        ∀ e, (Register envR us ss).2.2.body ≠ .errBody e)
    ∧ ((Login envL us ss).2.2.setCookie.isSome = true →
        ∀ e, (Login envL us ss).2.2.body ≠ .errBody e) := by
  have hR :
      (Register envR us ss).2.2.setCookie.isSome = true ↔
        ∃ req us2 cu ss2 sess,
          envR.readRequest = .ok req
          ∧ envR.registerUC req us = .ok (us2, cu)
          ∧ envR.createSession cu.user.ID envR.sessionExpire ss
              = .ok (ss2, sess) := by
    unfold Register
    rcases hr : envR.readRequest with e | req
    · simp [hr, errorResponse]
    · rcases huc : envR.registerUC req us with e | ⟨us2, cu⟩
      · simp [hr, huc, errorResponse]
      · rcases hcs : envR.createSession cu.user.ID envR.sessionExpire ss
          with e | ⟨ss2, sess⟩
        · simp [hr, huc, hcs, errorResponse]
        · simp [hr, huc, hcs]
          exact ⟨us2, cu, ⟨rfl, rfl⟩, ss2, sess, hcs⟩
  have hL :
      (Login envL us ss).2.2.setCookie.isSome = true ↔
        ∃ login us2 ut ss2 sess,
          envL.readRequest = .ok login
          ∧ envL.loginUC login us = .ok (us2, ut)
          ∧ envL.createSession ut.user.ID envL.sessionExpire ss
              = .ok (ss2, sess) := by
    unfold Login
    rcases hr : envL.readRequest with e | login
    · simp [hr, errorResponse]
    · rcases huc : envL.loginUC login us with e | ⟨us2, ut⟩
      · simp [hr, huc, errorResponse]
      · rcases hcs : envL.createSession ut.user.ID envL.sessionExpire ss
          with e | ⟨ss2, sess⟩
        · simp [hr, huc, hcs, errorResponse]
        · simp [hr, huc, hcs]
          exact ⟨us2, ut, ⟨rfl, rfl⟩, ss2, sess, hcs⟩
  refine ⟨hR, hL, ?_, ?_⟩
  · intro h e
    rcases hR.1 h with ⟨req, us2, cu, ss2, sess, h1, h2, h3⟩
    unfold Register
    simp [h1, h2, h3]
  · intro h e
    rcases hL.1 h with ⟨login, us2, ut, ss2, sess, h1, h2, h3⟩
    unfold Login
    simp [h1, h2, h3]

/-- Concrete full-success Register environment for the C9 witness. -/
def regEnvOk : RegisterEnv :=
  { readRequest := .ok reqW
    registerUC := fun _ us => .ok (userW :: us, createdW)
    createSession := fun uid _ ss =>
      .ok ({ sessionID := "sid-1", userID := uid } :: ss,
           { sessionID := "sid-1", userID := uid })
    sessionExpire := 86400 }

/-- Concrete full-success Login environment for the C9 witness. -/
def loginEnvOk : LoginEnv :=
  { readRequest := .ok { email := "ada@example.com", password := "plain-pw-123" }
    loginUC := fun _ us => .ok (us, createdW)
    createSession := fun uid _ ss =>
      .ok ({ sessionID := "sid-2", userID := uid } :: ss,
           { sessionID := "sid-2", userID := uid })
    sessionExpire := 86400 }

/-- Witness for C9: the equivalence instantiated at the concrete full-success
environments with empty stores. -/
theorem session_cookie_iff_success_witness :
    ((Register regEnvOk [] []).2.2.setCookie.isSome = true ↔
      ∃ req us2 cu ss2 sess,
        regEnvOk.readRequest = .ok req
        ∧ regEnvOk.registerUC req [] = .ok (us2, cu)
        ∧ regEnvOk.createSession cu.user.ID regEnvOk.sessionExpire []
            = .ok (ss2, sess))
    ∧ ((Login loginEnvOk [] []).2.2.setCookie.isSome = true ↔
      ∃ login us2 ut ss2 sess,
        loginEnvOk.readRequest = .ok login
        ∧ loginEnvOk.loginUC login [] = .ok (us2, ut)
        ∧ loginEnvOk.createSession ut.user.ID loginEnvOk.sessionExpire []
            = .ok (ss2, sess))
    ∧ ((Register regEnvOk [] []).2.2.setCookie.isSome = true →
        ∀ e, (Register regEnvOk [] []).2.2.body ≠ .errBody e)
    ∧ ((Login loginEnvOk [] []).2.2.setCookie.isSome = true →
        ∀ e, (Login loginEnvOk [] []).2.2.body ≠ .errBody e) :=
  session_cookie_iff_success regEnvOk loginEnvOk [] []

/- ### C2 — Logout -/

/-- Logout environment whose request carries the session cookie but whose
session store fails the delete with StorageError. -/
def logoutEnvFail : LogoutEnv :=
  { cookie := some "sid-1"
    deleteByID := fun _ _ => .error .storage }

/-- Counterexample to C2 as stated: a request that does carry the session
cookie on which DeleteByID is called with the cookie value but fails with
StorageError — the handler then returns the 500 error response and does not
clear the cookie, so the cookie-carrying case does not always end in 200 with
the cookie cleared. -/
theorem logout_claim_counterexample :
    logoutEnvFail.cookie = some "sid-1"
    ∧ (Logout logoutEnvFail [sessW]).2.1 = ["sid-1"]
    ∧ ¬((Logout logoutEnvFail [sessW]).2.2.status = 200
        ∧ (Logout logoutEnvFail [sessW]).2.2.clearCookie = true) := by
  decide

/-- C2 amended: a request without the session cookie fails with the 401
UnauthorizedError response and DeleteByID is never called; a request carrying
the cookie always has DeleteByID called with the cookie value; when the delete
succeeds the handler clears the session cookie and returns 200 with an empty
body, and when it fails the handler returns the mapped error response without
clearing the cookie. -/
theorem logout_amended (env : LogoutEnv) (ss : SessStore) :
    (env.cookie = none →
      Logout env ss = (ss, [], errorResponse .unauthorized)
      ∧ (errorResponse .unauthorized).status = 401)
    ∧ (∀ v, env.cookie = some v → (Logout env ss).2.1 = [v])
    ∧ (∀ v ss2, env.cookie = some v → env.deleteByID v ss = .ok ss2 →
        Logout env ss = (ss2, [v],
          { status := 200
            body := .empty
            setCookie := none
            clearCookie := true
            headers := [] }))
    ∧ (∀ v e, env.cookie = some v → env.deleteByID v ss = .error e →
        Logout env ss = (ss, [v], errorResponse e)
        ∧ (errorResponse e).clearCookie = false) := by
  refine ⟨?_, ?_, ?_, ?_⟩
  · intro hc
    unfold Logout
    simp [hc, errorResponse, statusOf]
  · intro v hc
    unfold Logout
    rcases hd : env.deleteByID v ss with e | ss2 <;> simp [hc, hd]
  · intro v ss2 hc hd
    unfold Logout
    simp [hc, hd]
  · intro v e hc hd
    unfold Logout
    simp [hc, hd, errorResponse]

/-- Logout environment whose request carries the session cookie and whose
delete succeeds by clearing the whole session store. -/
def logoutEnvOk : LogoutEnv :=
  { cookie := some "sid-1"
    deleteByID := fun _ _ => .ok [] }

/-- Witness for the amended C2: at the concrete success environment the
cookie-present case goes through end to end. -/
theorem logout_amended_witness :
    logoutEnvOk.cookie = some "sid-1"
    ∧ Logout logoutEnvOk [sessW] = ([], ["sid-1"],
        { status := 200
          body := .empty
          setCookie := none
          clearCookie := true
          headers := [] }) :=
  ⟨rfl, (logout_amended logoutEnvOk [sessW]).2.2.1 "sid-1" [] rfl rfl⟩

/- ### C5 — FindByName -/

/-- C5: a FindByName request with an empty or missing name query parameter
gets the 400 BadRequest error response and the use-case search is never
invoked; with a name present, a parsed pagination and a successful search the
handler returns 200 with the UsersList. -/
theorem findByName_cases (env : FindByNameEnv) :
    (env.nameParam = "" →
      FindByName env = (false, errorResponse .badRequest)
      ∧ (errorResponse .badRequest).status = 400)
    ∧ (∀ pq l, env.nameParam ≠ "" →
        env.pagination = .ok pq →
        env.findByNameUC env.nameParam pq = .ok l →
        FindByName env = (true,
          { status := 200
            body := .usersListBody l
            setCookie := none
            clearCookie := false
            headers := [] })) := by
  constructor
  · intro hn
    unfold FindByName
    simp [hn, errorResponse, statusOf]
  · intro pq l hn hp hf
    unfold FindByName
    simp [hn, hp, hf]

/-- A concrete pagination query. -/
def pqW : PaginationQuery := { page := 1, size := 10, orderBy := "id" }

/-- A concrete one-page result list. -/
def listW : UsersList :=
  { page := 1
    size := 10
    totalCount := 1
    totalPages := 1
    hasMore := false
    users := [userW] }

/-- FindByName environment with the name parameter missing. -/
def findEnvMissing : FindByNameEnv :=
  { nameParam := ""
    pagination := .ok pqW
    findByNameUC := fun _ _ => .ok listW }

/-- FindByName environment with a present name and a succeeding search. -/
def findEnvOk : FindByNameEnv :=
  { nameParam := "ali"
    pagination := .ok pqW
    findByNameUC := fun _ _ => .ok listW }

/-- Witness for C5 at the two concrete environments: missing name gets the
400 response without a search, present name gets 200 with the list. -/
theorem findByName_cases_witness :
    (FindByName findEnvMissing = (false, errorResponse .badRequest)
      ∧ (errorResponse .badRequest).status = 400)
    ∧ FindByName findEnvOk = (true,
        { status := 200
          body := .usersListBody listW
          setCookie := none
          clearCookie := false
          headers := [] }) :=
  ⟨(findByName_cases findEnvMissing).1 rfl,
   (findByName_cases findEnvOk).2 pqW listW (by decide) rfl rfl⟩

/- ### C8 — Sanitize middleware -/

/-- C8: when the body read fails, or the body is not sanitizable JSON, the
Sanitize middleware responds 400 with no body and the next handler never
runs; when both succeed the sanitized bytes are stored in the request context
under the key body and the next handler runs on that context. -/
theorem sanitize_cases (env : SanitizeEnv) (ctx : List (String × Bytes))
    (next : List (String × Bytes) → Response) :
    (∀ er, env.readBody = .error er →
      Sanitize env ctx next = (false,
        { status := 400
          body := .empty
          setCookie := none
          clearCookie := false
          headers := [] }))
    ∧ (∀ b es, env.readBody = .ok b → env.sanitizeJSON b = .error es →
      Sanitize env ctx next = (false,
        { status := 400
          body := .empty
          setCookie := none
          clearCookie := false
          headers := [] }))
    ∧ (∀ b sanBody, env.readBody = .ok b → env.sanitizeJSON b = .ok sanBody →
      Sanitize env ctx next = (true, next (("body", sanBody) :: ctx))
      ∧ (("body", sanBody) :: ctx).lookup "body" = some sanBody) := by
  refine ⟨?_, ?_, ?_⟩
  · intro er hr
    unfold Sanitize
    simp [hr]
  · intro b es hr hs
    unfold Sanitize
    simp [hr, hs]
  · intro b sanBody hr hs
    unfold Sanitize
    simp [hr, hs, List.lookup]

/-- Sanitize environment whose body read fails. -/
def sanEnvBadRead : SanitizeEnv :=
  { readBody := .error ()
    sanitizeJSON := fun b => .ok b }

/-- Sanitize environment whose body reads but does not sanitize. -/
def sanEnvBadBody : SanitizeEnv :=
  { readBody := .ok [60]
    sanitizeJSON := fun _ => .error () }

/-- Sanitize environment whose body reads and sanitizes to itself. -/
def sanEnvOk : SanitizeEnv :=
  { readBody := .ok [123, 125]
    sanitizeJSON := fun b => .ok b }

/-- A trivial next handler for the C8 witness. -/
def nextW : List (String × Bytes) → Response := fun _ =>
  { status := 200
    body := .empty
    setCookie := none
    clearCookie := false
    headers := [] }

/-- Witness for C8 at the three concrete environments. -/
theorem sanitize_cases_witness :
    Sanitize sanEnvBadRead [] nextW = (false,
      { status := 400
        body := .empty
        setCookie := none
        clearCookie := false
        headers := [] })
    ∧ Sanitize sanEnvBadBody [] nextW = (false,
      { status := 400
        body := .empty
        setCookie := none
        clearCookie := false
        headers := [] })
    ∧ (Sanitize sanEnvOk [] nextW = (true, nextW [("body", [123, 125])])
      ∧ ([("body", [123, 125])] : List (String × Bytes)).lookup "body"
          = some [123, 125]) :=
  ⟨(sanitize_cases sanEnvBadRead [] nextW).1 () rfl,
   (sanitize_cases sanEnvBadBody [] nextW).2.1 [60] () rfl rfl,
   (sanitize_cases sanEnvOk [] nextW).2.2 [123, 125] [123, 125] rfl rfl⟩

/- ### C10 — malformed user_id path parameter -/

/-- C10: when the user_id path parameter does not parse as a decimal integer,
each of Update, GetUserByID and Delete returns the mapped error response,
never invokes its use case, and leaves the user store unchanged. -/
theorem malformed_id_no_usecase
    (envU : UpdateEnv) (envG : GetUserByIDEnv) (envD : DeleteEnv)
    (us : UserStore)
    (hU : atoi envU.userIDParam = none)
    (hG : atoi envG.userIDParam = none)
    (hD : atoi envD.userIDParam = none) :
    Update envU us = (us, false, errorResponse .validation)
    ∧ GetUserByID envG us = (us, false, errorResponse .validation)
    ∧ Delete envD us = (us, false, errorResponse .validation) := by
  unfold Update GetUserByID Delete
  simp [hU, hG, hD]

/-- Update environment with a malformed user_id. -/
def updEnvBad : UpdateEnv :=
  { userIDParam := "12abc"
    readRequest := .ok userW
    updateUC := fun u us => .ok (us, u) }

/-- GetUserByID environment with a malformed user_id. -/
def getEnvBad : GetUserByIDEnv :=
  { userIDParam := "7.5"
    getByIDUC := fun _ _ => .ok userW }

/-- Delete environment with a malformed user_id. -/
def delEnvBad : DeleteEnv :=
  { userIDParam := ""
    deleteUC := fun _ us => .ok us }

/-- Witness for C10 at the three concrete malformed parameters. -/
theorem malformed_id_no_usecase_witness :
    Update updEnvBad [userW] = ([userW], false, errorResponse .validation)
    ∧ GetUserByID getEnvBad [userW]
        = ([userW], false, errorResponse .validation)
    ∧ Delete delEnvBad [userW] = ([userW], false, errorResponse .validation) :=
  malformed_id_no_usecase updEnvBad getEnvBad delEnvBad [userW]
    (by decide) (by decide) (by decide)

/- ### C7 — UsersList pagination invariant -/

/-- C7: every envelope listPage builds satisfies total_pages equal to the
ceiling division of total_count by size — with the ceiling characterized by
its universal property, total_pages being at most m exactly when m pages of
the given size cover all users — and has_more holding exactly when page is
below total_pages; on the concrete 25-user directory with size 10, page 2
carries 10 users with total_pages 3 and has_more true, and page 3 carries 5
users with has_more false. -/
theorem usersList_pagination_invariant
    (directory : List User) (page size : Nat) (hsize : 0 < size) :
    ((listPage directory page size).totalPages
        = (listPage directory page size).totalCount ⌈/⌉
            (listPage directory page size).size
      ∧ (∀ m : Nat, (listPage directory page size).totalPages ≤ m ↔
          (listPage directory page size).totalCount ≤ m * size)
      ∧ ((listPage directory page size).hasMore = true ↔
          (listPage directory page size).page
            < (listPage directory page size).totalPages))
    ∧ ((listPage directory25 2 10).users.length = 10
      ∧ (listPage directory25 2 10).totalPages = 3
      ∧ (listPage directory25 2 10).hasMore = true
      ∧ (listPage directory25 3 10).users.length = 5
      ∧ (listPage directory25 3 10).hasMore = false) := by
  refine ⟨⟨rfl, ?_, ?_⟩, by decide, by decide, by decide, by decide, by decide⟩
  · intro m
    show getTotalPages directory.length size ≤ m
      ↔ directory.length ≤ m * size
    have h : directory.length ⌈/⌉ size ≤ m ↔ directory.length ≤ size • m :=
      ceilDiv_le_iff_le_smul hsize
    rw [smul_eq_mul, Nat.mul_comm] at h
    exact h
  · show decide (page < getTotalPages directory.length size) = true
      ↔ page < getTotalPages directory.length size
    exact decide_eq_true_iff

/-- Witness for C7: the invariant applied to the 25-user directory at page 2
with size 10, together with the concrete page contents. -/
theorem usersList_pagination_invariant_witness :
    (0 : Nat) < 10
    ∧ (listPage directory25 2 10).totalPages
        = (listPage directory25 2 10).totalCount ⌈/⌉
            (listPage directory25 2 10).size
    ∧ (listPage directory25 2 10).users.length = 10
    ∧ (listPage directory25 3 10).users.length = 5 :=
  ⟨by decide,
   (usersList_pagination_invariant directory25 2 10 (by decide)).1.1,
   (usersList_pagination_invariant directory25 2 10 (by decide)).2.1,
   (usersList_pagination_invariant directory25 2 10 (by decide)).2.2.2.2.1⟩

end Boilerplate
